import Mathlib

/-!
Verification development for the openlava-web repository.

The definitions below are a shallow embedding of the code in
src/openlavaweb/views.py and src/openlavaweb/cluster/init.py.
Pure helpers become Lean functions; the scheduler library and the
operating system are treated as oracles supplied through explicit
environment records, since they are external collaborators of the
repository.  Django HTTP machinery is modelled only at the level of
the values the code under verification produces.
-/

/-- Json values, the target domain of serialization.  Object fields are
kept in insertion order; the Python json.dumps call sorts keys only for
presentation, which no claim here depends on. -/
inductive Json where
  | null : Json
  | str : String → Json
  | num : Int → Json
  | bool : Bool → Json
  | arr : List Json → Json
  | obj : List (String × Json) → Json
deriving Repr

/-- Lookup of a key in an association list, first binding wins. -/
def jsonFieldLookup {α : Type} (fields : List (String × α)) (k : String) :
    Option α :=
  match fields with
  | [] => none
  | (k2, v) :: rest => if k2 = k then some v else jsonFieldLookup rest k

/-- Python dict assignment on an association list: replace the value of an
existing key in place, otherwise append the new binding at the end. -/
def dictInsert {α : Type} (fields : List (String × α)) (k : String) (v : α) :
    List (String × α) :=
  if fields.any (fun p => p.1 = k) then
    fields.map (fun p => if p.1 = k then (k, v) else p)
  else
    fields ++ [(k, v)]

/-- Keys of an association list in order. -/
def dictKeys {α : Type} (fields : List (String × α)) : List String :=
  fields.map (fun p => p.1)

/-! ## Exception taxonomy (cluster/init.py) -/

/-- The closed set of ClusterException subclasses declared in
src/openlavaweb/cluster/init.py. -/
inductive ClusterKind where
  | noSuchHost
  | noSuchJob
  | noSuchQueue
  | noSuchUser
  | resourceDoesntExist
  | clusterInterfaceError
  | permissionDenied
  | jobSubmitError
deriving DecidableEq, Repr

/-- Python class name of each ClusterException subclass. -/
def ClusterKind.className : ClusterKind → String
  | .noSuchHost => "NoSuchHostError"
  | .noSuchJob => "NoSuchJobError"
  | .noSuchQueue => "NoSuchQueueError"
  | .noSuchUser => "NoSuchUserError"
  | .resourceDoesntExist => "ResourceDoesntExistError"
  | .clusterInterfaceError => "ClusterInterfaceError"
  | .permissionDenied => "PermissionDeniedError"
  | .jobSubmitError => "JobSubmitError"

/-- The http response hint attached to each subclass (the base class value
is None, modelled as the empty hint). -/
def ClusterKind.httpResponse : ClusterKind → Option String
  | .noSuchHost => some "HttpResponseNotFound"
  | .noSuchJob => some "HttpResponseNotFound"
  | .noSuchQueue => some "HttpResponseNotFound"
  | .noSuchUser => some "HttpResponseNotFound"
  | .resourceDoesntExist => some "HttpResponseNotFound"
  | .clusterInterfaceError => none
  | .permissionDenied => some "HttpResponseForbidden"
  | .jobSubmitError => none

/-- A constructed ClusterException value: the subclass, the positional
message argument, and the keyword extras recorded by init in order.
Python keyword arguments always have pairwise distinct names and cannot
reuse the name message of the positional parameter. -/
structure ClusterException where
  kind : ClusterKind
  message : String
  extras : List (String × Json)
deriving Repr

/-- Embedding of ClusterException.json_response: it builds a dict holding
only the class name and the message. -/
def ClusterException.json_response (e : ClusterException) : List (String × Json) :=
  [("exception_class", Json.str e.kind.className),
   ("message", Json.str e.message)]

/-- Embedding of ClusterException.to_json: a dict is initialised with
status Fail, type Exception and the message, then every extra field is
assigned into the dict (overwriting a like-named base entry). -/
def ClusterException.to_json (e : ClusterException) : List (String × Json) :=
  e.extras.foldl (fun fs p => dictInsert fs p.1 p.2)
    [("status", Json.str "Fail"),
     ("type", Json.str "Exception"),
     ("message", Json.str e.message)]

/-! ## Job time views (cluster/init.py, JobBase) -/

/-- Model of datetime.datetime.fromtimestamp: the epoch value is rendered
as civil time in the local zone, with tzOffset seconds between local time
and UTC.  The civil time is represented as shifted seconds. -/
def fromtimestamp (tzOffset : Int) (t : Int) : Int := t + tzOffset

/-- Model of datetime.datetime.utcfromtimestamp: the epoch value is
rendered as civil time in UTC. -/
def utcfromtimestamp (t : Int) : Int := t

/-- The epoch-seconds base attributes of JobBase that have derived
datetime views.  On a live object each is a property supplied by the
scheduler backend; they are the inputs of the view functions here. -/
structure JobTimes where
  begin_time : Int
  predicted_start_time : Int
  end_time : Int
  reservation_time : Int
  start_time : Int
  submit_time : Int
  termination_time : Int
deriving Repr

def JobTimes.begin_time_datetime_local (tz : Int) (j : JobTimes) : Int :=
  fromtimestamp tz j.begin_time

def JobTimes.predicted_start_time_datetime_local (tz : Int) (j : JobTimes) : Int :=
  fromtimestamp tz j.predicted_start_time

def JobTimes.end_time_datetime_local (j : JobTimes) : Int :=
  utcfromtimestamp j.end_time

def JobTimes.reservation_time_datetime_local (tz : Int) (j : JobTimes) : Int :=
  fromtimestamp tz j.reservation_time

def JobTimes.start_time_datetime_local (j : JobTimes) : Int :=
  utcfromtimestamp j.start_time

def JobTimes.submit_time_datetime_local (tz : Int) (j : JobTimes) : Int :=
  fromtimestamp tz j.submit_time

def JobTimes.termination_time_datetime_local (tz : Int) (j : JobTimes) : Int :=
  fromtimestamp tz j.termination_time

/-! ## ClusterBase.problem_hosts (cluster/init.py) -/

/-- The slice of a host object that problem_hosts inspects. -/
structure HostEnt where
  host_name : String
  is_down : Bool
deriving DecidableEq, Repr

/-- A cluster view: the hosts accessor either returns the host collection
or raises (the base class raises NotImplementedError), modelled as none. -/
structure ClusterView where
  hosts : Option (List HostEnt)

/-- Embedding of the loop body of ClusterBase.problem_hosts. -/
def problemHostsLoop (hs : List HostEnt) : List HostEnt :=
  hs.foldl (fun acc h => if h.is_down then acc ++ [h] else acc) []

/-- Embedding of ClusterBase.problem_hosts: iterate over self.hosts() and
collect the hosts whose is_down flag holds; a failing hosts accessor
propagates. -/
def ClusterView.problem_hosts (c : ClusterView) : Option (List HostEnt) :=
  match c.hosts with
  | none => none
  | some hs => some (problemHostsLoop hs)

/-! ## Projection encoder (views.py, ClusterEncoder) -/

/-- The isinstance dispatch classes used by ClusterEncoder.check.  The
check method tests ExecutionHost before Host, so the two are distinct
kinds here; every other object falls into the other kind. -/
inductive EntityKind where
  | executionHost
  | host
  | job
  | queue
  | other
deriving DecidableEq, Repr

/-- Python values as the encoder sees them.  An entity carries its class
name, its isinstance kind, its attribute table (getattr results, where a
bound method is wrapped in vMethod and calling it yields the wrapped
value), and the list returned by its json_attributes method. -/
inductive PyObj where
  | vNone : PyObj
  | vStr : String → PyObj
  | vInt : Int → PyObj
  | vBool : Bool → PyObj
  | vTimedelta : Int → PyObj
  | vMethod : PyObj → PyObj
  | vList : List PyObj → PyObj
  | vDict : List (String × PyObj) → PyObj
  | vEntity : String → EntityKind → List (String × PyObj) → List String → PyObj
deriving Repr

/-- Model of getattr on an entity attribute table: the first binding for
the name, or failure (AttributeError). -/
def pyGetattr (attrs : List (String × PyObj)) (name : String) : Option PyObj :=
  match attrs with
  | [] => none
  | (n, v) :: rest => if n = name then some v else pyGetattr rest name

/-- Model of the django reverse url helper: an opaque locator built from
the route name and its arguments.  The real helper is an external
collaborator; only the fact that a locator string is produced matters. -/
def reverseUrl (route : String) (args : List String) : String :=
  route ++ "/" ++ String.intercalate "/" args

/-- String rendering of a PyObj used inside url arguments (the source
passes ints and strings to reverse). -/
def pyArgString : PyObj → String
  | .vStr s => s
  | .vInt n => toString n
  | _ => ""

/-- Embedding of ClusterEncoder.check.  For ExecutionHost, Host, Job and
Queue instances it builds the reference stub dict read off the source
literally; any other value is returned unchanged.  Attribute access on a
stubbed instance can fail (AttributeError), propagated as none. -/
def ClusterEncoder.check (obj : PyObj) : Option PyObj :=
  match obj with
  | .vEntity _ .executionHost attrs _ =>
    match pyGetattr attrs "name" with
    | none => none
    | some n =>
      match pyGetattr attrs "num_slots_for_job" with
      | none => none
      | some ns =>
        some (.vDict
          [("type", .vStr "ExecutionHost"),
           ("name", n),
           ("num_slots", ns),
           ("url", .vStr (reverseUrl "olw_host_view" [pyArgString n]))])
  | .vEntity _ .host attrs _ =>
    match pyGetattr attrs "name" with
    | none => none
    | some n =>
      some (.vDict
        [("type", .vStr "Host"),
         ("name", n),
         ("url", .vStr (reverseUrl "olw_host_view" [pyArgString n]))])
  | .vEntity _ .job attrs _ =>
    match pyGetattr attrs "name" with
    | none => none
    | some n =>
    match pyGetattr attrs "job_id" with
    | none => none
    | some jid =>
    match pyGetattr attrs "array_index" with
    | none => none
    | some aidx =>
    match pyGetattr attrs "user_name" with
    | none => none
    | some un =>
    match pyGetattr attrs "status" with
    | none => none
    | some st =>
    match pyGetattr attrs "submit_time" with
    | none => none
    | some sub =>
    match pyGetattr attrs "start_time" with
    | none => none
    | some sta =>
    match pyGetattr attrs "end_time" with
    | none => none
    | some fin =>
      some (.vDict
        [("type", .vStr "Job"),
         ("name", n),
         ("job_id", jid),
         ("array_index", aidx),
         ("url", .vStr (reverseUrl "olw_job_view_array"
           [pyArgString jid, pyArgString aidx])),
         ("user_name", un),
         ("user_url", .vStr (reverseUrl "olw_user_view" [pyArgString un])),
         ("status", st),
         ("submit_time", sub),
         ("start_time", sta),
         ("end_time", fin)])
  | .vEntity _ .queue attrs _ =>
    match pyGetattr attrs "name" with
    | none => none
    | some n =>
      some (.vDict
        [("type", .vStr "Queue"),
         ("name", n),
         ("url", .vStr (reverseUrl "olw_queue_view" [pyArgString n]))])
  | other => some other

/-- The per-attribute transformation in the loop of ClusterEncoder.default:
call the value if it is callable, then map check over a list value, else
apply check to the value itself. -/
def ClusterEncoder.defaultField (v : PyObj) : Option PyObj :=
  let v := match v with
    | .vMethod r => r
    | w => w
  match v with
  | .vList xs => (xs.mapM ClusterEncoder.check).map PyObj.vList
  | w => ClusterEncoder.check w

/-- The loop of ClusterEncoder.default: for each manifest name in order,
fetch the attribute (getattr) and run the per-attribute transformation; a
failure of either fails the whole encode. -/
def ClusterEncoder.defaultFields (attrs : List (String × PyObj)) :
    List String → Option (List (String × PyObj))
  | [] => some []
  | name :: rest =>
    match pyGetattr attrs name with
    | none => none
    | some raw =>
      match ClusterEncoder.defaultField raw with
      | none => none
      | some v =>
        match ClusterEncoder.defaultFields attrs rest with
        | none => none
        | some tail => some ((name, v) :: tail)

/-- Embedding of ClusterEncoder.default.  A timedelta is replaced by its
total seconds; any other object must provide json_attributes (an entity
here), and the result dict starts with the type key and then assigns one
processed value per manifest name, with Python dict assignment
semantics.  A failing attribute access fails the whole encode. -/
def ClusterEncoder.default (obj : PyObj) : Option PyObj :=
  match obj with
  | .vTimedelta s => some (.vInt s)
  | .vEntity cn _ attrs manifest =>
    match ClusterEncoder.defaultFields attrs manifest with
    | none => none
    | some fields =>
      some (.vDict (fields.foldl (fun d p => dictInsert d p.1 p.2)
        [("type", PyObj.vStr cn)]))
  | _ => none

/-- Driver of the serialization, mirroring json.dumps with the
ClusterEncoder class: plain values pass through, containers recurse, and
a non-serializable object is replaced by the result of default and
re-serialized.  Fuel bounds the recursion depth of the model; json.dumps
itself recurses without an explicit bound. -/
def jsonDumps (fuel : Nat) (obj : PyObj) : Option Json :=
  match fuel with
  | 0 => none
  | fuel + 1 =>
    match obj with
    | .vNone => some Json.null
    | .vStr s => some (Json.str s)
    | .vInt n => some (Json.num n)
    | .vBool b => some (Json.bool b)
    | .vList xs => (xs.mapM (jsonDumps fuel)).map Json.arr
    | .vDict fs =>
        (fs.mapM (fun p => (jsonDumps fuel p.2).map (fun j => (p.1, j)))).map Json.obj
    | .vTimedelta s => (ClusterEncoder.default (.vTimedelta s)).bind (jsonDumps fuel)
    | .vMethod r => (ClusterEncoder.default (.vMethod r)).bind (jsonDumps fuel)
    | .vEntity cn k attrs manifest =>
        (ClusterEncoder.default (.vEntity cn k attrs manifest)).bind (jsonDumps fuel)

/-! ### Declared projection manifests copied from cluster/init.py -/

/-- Embedding of HostBase.json_attributes. -/
def HostBase.json_attributes : List String :=
  ["admins", "name", "host_name", "description", "has_checkpoint_support",
   "host_model", "host_type", "resources", "is_busy", "is_closed", "is_down",
   "max_jobs", "max_processors", "max_ram", "max_slots", "max_swap", "max_tmp",
   "num_reserved_slots", "num_running_jobs", "num_running_slots",
   "num_suspended_jobs", "num_suspended_slots", "statuses", "total_jobs",
   "total_slots", "jobs", "load_information", "cluster_type"]

/-- Embedding of JobBase.json_attributes. -/
def JobBase.json_attributes : List String :=
  ["queue", "submission_host", "execution_hosts", "requested_hosts",
   "cluster_type", "admins", "job_id", "array_index", "begin_time", "command",
   "consumed_resources", "cpu_time", "dependency_condition", "email_user",
   "end_time", "error_file_name", "input_file_name", "max_requested_slots",
   "name", "options", "output_file_name", "pending_reasons",
   "predicted_start_time", "priority", "process_id", "processes",
   "project_names", "requested_resources", "requested_slots",
   "reservation_time", "runtime_limits", "start_time", "status",
   "submit_time", "suspension_reasons", "termination_time", "user_name",
   "user_priority", "is_pending", "is_running", "is_suspended", "is_failed",
   "was_killed", "is_completed"]

/-- Embedding of Process.json_attributes: the two base fields plus the
extras recorded at construction time. -/
def Process.json_attributes (extras : List String) : List String :=
  ["hostname", "process_id"] ++ extras

/-! ## Privilege-separated executor (views.py) -/

/-- The slice of the django request the mutating endpoints read: the
authenticated user name, whether the request is ajax, and whether the
json query parameter is set. -/
structure Request where
  username : String
  is_ajax : Bool
  getJson : Bool
deriving DecidableEq, Repr

/-- Exceptions that flow through the worker and the parent.  keyError is
raised by pwd.getpwnam on an unknown account, osError by os.setuid,
queueEmpty by Queue.get on an empty channel, and cluster wraps any
ClusterException raised by the scheduler library. -/
inductive PyExc where
  | keyError : PyExc
  | osError : PyExc
  | queueEmpty : PyExc
  | cluster : ClusterException → PyExc
deriving Repr

/-- Oracle for one invocation: the OS user database, the per-uid outcome
of os.setuid, and the outcomes of the two scheduler calls the worker will
attempt (entity constructor and mutating method).  A none outcome means
the call succeeds. -/
structure WorkerEnv where
  getpwnam : String → Option Nat
  setuidOk : Nat → Bool
  resolveErr : Option PyExc
  mutateErr : Option PyExc
  submitData : Json

/-- Observable steps of a worker, in program order. -/
inductive Event where
  | getpwnamOk : Event
  | getpwnamFail : Event
  | setuidDone : Event
  | setuidFail : Event
  | schedResolve : Event
  | schedMutate : Event
deriving DecidableEq, Repr

/-- The standard response envelope, the dict built by create_js_response
before serialization. -/
structure JsResponse where
  status : String
  data : Json
  message : String
deriving Repr

/-- Embedding of create_js_response: status OK unless the failure flag is
set, together with the given data and message.  The source defaults are
data None, message empty, failure false; call sites below pass all three
explicitly. -/
def create_js_response (data : Json) (message : String) (is_failure : Bool) :
    JsResponse :=
  { status := if is_failure then "FAIL" else "OK"
    data := data
    message := message }

/-- Embedding of handle_cluster_exception: a FAIL envelope whose data is
the json_response record of the exception and whose message is the
exception message.  The choice of http response class is a presentation
detail carried by ClusterKind.httpResponse. -/
def handle_cluster_exception (e : ClusterException) : JsResponse :=
  create_js_response (Json.obj e.json_response) e.message true

/-- The single message a worker enqueues on the one-shot channel. -/
inductive Msg where
  | response : JsResponse → Msg
  | redirect : String → Msg
  | exc : PyExc → Msg
deriving Repr

/-- One worker execution: the ordered trace of its observable steps and
the message it enqueues. -/
structure WorkerRun where
  trace : List Event
  msg : Msg
deriving Repr

/-- Shared body of every execute worker function in views.py (the source
repeats this try block verbatim in each one): resolve the requesting user
with pwd.getpwnam, drop identity with os.setuid on the resolved uid, then
perform the scheduler calls (a fresh construction of the target entity
when the operation has one, then the single mutating call), and enqueue
the success message; the except block catches any exception raised along
the way and enqueues it instead. -/
def privilegedWorkerRun (env : WorkerEnv) (request : Request)
    (withResolve : Bool) (success : Msg) : WorkerRun :=
  match env.getpwnam request.username with
  | none => ⟨[Event.getpwnamFail], Msg.exc PyExc.keyError⟩
  | some uid =>
    match env.setuidOk uid with
    | false => ⟨[Event.getpwnamOk, Event.setuidFail], Msg.exc PyExc.osError⟩
    | true =>
      match withResolve with
      | true =>
        match env.resolveErr with
        | some e =>
            ⟨[Event.getpwnamOk, Event.setuidDone, Event.schedResolve], Msg.exc e⟩
        | none =>
          match env.mutateErr with
          | some e =>
              ⟨[Event.getpwnamOk, Event.setuidDone, Event.schedResolve,
                Event.schedMutate], Msg.exc e⟩
          | none =>
              ⟨[Event.getpwnamOk, Event.setuidDone, Event.schedResolve,
                Event.schedMutate], success⟩
      | false =>
        match env.mutateErr with
        | some e =>
            ⟨[Event.getpwnamOk, Event.setuidDone, Event.schedMutate], Msg.exc e⟩
        | none =>
            ⟨[Event.getpwnamOk, Event.setuidDone, Event.schedMutate], success⟩

/-- Embedding of execute_job_kill: setuid, construct the Job fresh, call
kill, and enqueue the result; note that the success envelope passes the
text Job Killed positionally, that is as the data argument of
create_js_response, not as the message. -/
def execute_job_kill (env : WorkerEnv) (request : Request)
    (job_id array_index : Nat) : WorkerRun :=
  privilegedWorkerRun env request true
    (if request.is_ajax then
      Msg.response (create_js_response (Json.str "Job Killed") "" false)
    else
      Msg.redirect (reverseUrl "olw_job_list" []))

/-- Embedding of execute_job_suspend. -/
def execute_job_suspend (env : WorkerEnv) (request : Request)
    (job_id array_index : Nat) : WorkerRun :=
  privilegedWorkerRun env request true
    (if request.is_ajax || request.getJson then
      Msg.response (create_js_response Json.null "Job suspended" false)
    else
      Msg.redirect (reverseUrl "olw_job_view_array"
        [toString job_id, toString array_index]))

/-- Embedding of execute_job_resume. -/
def execute_job_resume (env : WorkerEnv) (request : Request)
    (job_id array_index : Nat) : WorkerRun :=
  privilegedWorkerRun env request true
    (if request.is_ajax || request.getJson then
      Msg.response (create_js_response Json.null "Job Resumed" false)
    else
      Msg.redirect (reverseUrl "olw_job_view_array"
        [toString job_id, toString array_index]))

/-- Embedding of execute_job_requeue. -/
def execute_job_requeue (env : WorkerEnv) (request : Request)
    (job_id array_index : Nat) (hold : Bool) : WorkerRun :=
  privilegedWorkerRun env request true
    (if request.is_ajax || request.getJson then
      Msg.response (create_js_response Json.null "Job Requeued" false)
    else
      Msg.redirect (reverseUrl "olw_job_view_array"
        [toString job_id, toString array_index]))

/-- Embedding of execute_job_submit: after the identity drop the form
submit method performs the single scheduler submission call; there is no
separate entity resolution step.  Exceptions inside the submit method are
returned and enqueued, exceptions around it are caught and enqueued; both
arrive as an exception message. -/
def execute_job_submit (env : WorkerEnv) (request : Request) : WorkerRun :=
  privilegedWorkerRun env request false
    (if request.is_ajax || request.getJson then
      Msg.response (create_js_response env.submitData "Job Submitted" false)
    else
      Msg.redirect (reverseUrl "olw_job_view_array" []))

/-- Embedding of execute_queue_open. -/
def execute_queue_open (env : WorkerEnv) (request : Request)
    (queue_name : String) : WorkerRun :=
  privilegedWorkerRun env request true
    (if request.is_ajax then
      Msg.response (create_js_response Json.null "Queue opened" false)
    else
      Msg.redirect (reverseUrl "olw_queue_view" [queue_name]))

/-- Embedding of execute_queue_close. -/
def execute_queue_close (env : WorkerEnv) (request : Request)
    (queue_name : String) : WorkerRun :=
  privilegedWorkerRun env request true
    (if request.is_ajax then
      Msg.response (create_js_response Json.null "Queue closed" false)
    else
      Msg.redirect (reverseUrl "olw_queue_view" [queue_name]))

/-- Embedding of execute_queue_activate. -/
def execute_queue_activate (env : WorkerEnv) (request : Request)
    (queue_name : String) : WorkerRun :=
  privilegedWorkerRun env request true
    (if request.is_ajax then
      Msg.response (create_js_response Json.null "Queue activated" false)
    else
      Msg.redirect (reverseUrl "olw_queue_view" [queue_name]))

/-- Embedding of execute_queue_inactivate. -/
def execute_queue_inactivate (env : WorkerEnv) (request : Request)
    (queue_name : String) : WorkerRun :=
  privilegedWorkerRun env request true
    (if request.is_ajax then
      Msg.response (create_js_response Json.null "Queue inactivated" false)
    else
      Msg.redirect (reverseUrl "olw_queue_view" [queue_name]))

/-- Embedding of execute_host_open: the success envelope carries no data
and no message. -/
def execute_host_open (env : WorkerEnv) (request : Request)
    (host_name : String) : WorkerRun :=
  privilegedWorkerRun env request true
    (if request.is_ajax then
      Msg.response (create_js_response Json.null "" false)
    else
      Msg.redirect (reverseUrl "olw_host_view" [host_name]))

/-- Embedding of execute_host_close. -/
def execute_host_close (env : WorkerEnv) (request : Request)
    (host_name : String) : WorkerRun :=
  privilegedWorkerRun env request true
    (if request.is_ajax then
      Msg.response (create_js_response Json.null "" false)
    else
      Msg.redirect (reverseUrl "olw_host_view" [host_name]))

/-- What the parent view hands back to the request layer.  returnedObject
records the queue_close and host_close oddity of returning a raw
exception object as the http response; uncaught records an exception that
escapes the view; hang records a blocking Queue.get with no message. -/
inductive ParentOutcome where
  | response : JsResponse → ParentOutcome
  | redirect : String → ParentOutcome
  | rendered : String → ParentOutcome
  | returnedObject : PyExc → ParentOutcome
  | uncaught : PyExc → ParentOutcome
  | hang : ParentOutcome
deriving Repr

/-- One full invocation of a mutating endpoint as seen from outside:
whether a worker process was started, the worker trace, and the parent
outcome. -/
structure Invocation where
  spawnedWorker : Bool
  workerTrace : List Event
  outcome : ParentOutcome
deriving Repr

/-- Shared parent block of the endpoints that test isinstance(rc,
Exception): an exception message is re-raised; a ClusterException is then
handled (ajax and json requests get the FAIL envelope, others a rendered
error page) while any other exception escapes the view. -/
def getOrRaiseExceptionStyle (request : Request) (msg : Msg) (tmpl : String) :
    ParentOutcome :=
  match msg with
  | Msg.exc (PyExc.cluster c) =>
      if request.is_ajax || request.getJson then
        ParentOutcome.response (handle_cluster_exception c)
      else
        ParentOutcome.rendered tmpl
  | Msg.exc e => ParentOutcome.uncaught e
  | Msg.response r => ParentOutcome.response r
  | Msg.redirect u => ParentOutcome.redirect u

/-- Shared parent block of queue_close and host_close, which test
isinstance(rc, ClusterException) only: a ClusterException is re-raised
and handled, while any other exception object is returned as the http
response. -/
def getOrRaiseClusterStyle (request : Request) (msg : Msg) (tmpl : String) :
    ParentOutcome :=
  match msg with
  | Msg.exc (PyExc.cluster c) =>
      if request.is_ajax || request.getJson then
        ParentOutcome.response (handle_cluster_exception c)
      else
        ParentOutcome.rendered tmpl
  | Msg.exc e => ParentOutcome.returnedObject e
  | Msg.response r => ParentOutcome.response r
  | Msg.redirect u => ParentOutcome.redirect u

/-- Embedding of the mutating branch of the job_kill view.  The worker is
spawned unconditionally, the parent joins it and reads the channel with a
non-blocking get; on an empty channel the raw Queue.Empty error escapes
the ClusterException handler.  The delivered flag is the oracle for
whether the worker managed to enqueue its message before exiting. -/
def job_kill (env : WorkerEnv) (request : Request) (delivered : Bool)
    (job_id array_index : Nat) : Invocation :=
  let w := execute_job_kill env request job_id array_index
  { spawnedWorker := true
    workerTrace := w.trace
    outcome :=
      if delivered then
        getOrRaiseExceptionStyle request w.msg "openlavaweb/exception.html"
      else
        ParentOutcome.uncaught PyExc.queueEmpty }

/-- Embedding of the mutating branch of job_suspend. -/
def job_suspend (env : WorkerEnv) (request : Request) (delivered : Bool)
    (job_id array_index : Nat) : Invocation :=
  let w := execute_job_suspend env request job_id array_index
  { spawnedWorker := true
    workerTrace := w.trace
    outcome :=
      if delivered then
        getOrRaiseExceptionStyle request w.msg "openlavaweb/exception.html"
      else
        ParentOutcome.uncaught PyExc.queueEmpty }

/-- Embedding of the mutating branch of job_resume. -/
def job_resume (env : WorkerEnv) (request : Request) (delivered : Bool)
    (job_id array_index : Nat) : Invocation :=
  let w := execute_job_resume env request job_id array_index
  { spawnedWorker := true
    workerTrace := w.trace
    outcome :=
      if delivered then
        getOrRaiseExceptionStyle request w.msg "openlavaweb/exception.html"
      else
        ParentOutcome.uncaught PyExc.queueEmpty }

/-- Embedding of the mutating branch of job_requeue. -/
def job_requeue (env : WorkerEnv) (request : Request) (delivered : Bool)
    (job_id array_index : Nat) (hold : Bool) : Invocation :=
  let w := execute_job_requeue env request job_id array_index hold
  { spawnedWorker := true
    workerTrace := w.trace
    outcome :=
      if delivered then
        getOrRaiseExceptionStyle request w.msg "openlavaweb/exception.html"
      else
        ParentOutcome.uncaught PyExc.queueEmpty }

/-- Embedding of the submission branch of job_submit.  This endpoint reads
the channel with a blocking get before joining, so a worker that exits
without enqueuing leaves the parent blocked forever. -/
def job_submit (env : WorkerEnv) (request : Request) (delivered : Bool) :
    Invocation :=
  let w := execute_job_submit env request
  { spawnedWorker := true
    workerTrace := w.trace
    outcome :=
      if delivered then
        getOrRaiseExceptionStyle request w.msg "openlavaweb/exception.html"
      else
        ParentOutcome.hang }

/-- Embedding of the mutating branch of queue_open. -/
def queue_open (env : WorkerEnv) (request : Request) (delivered : Bool)
    (queue_name : String) : Invocation :=
  let w := execute_queue_open env request queue_name
  { spawnedWorker := true
    workerTrace := w.trace
    outcome :=
      if delivered then
        getOrRaiseExceptionStyle request w.msg "openlavaweb/exception.html"
      else
        ParentOutcome.uncaught PyExc.queueEmpty }

/-- Embedding of the mutating branch of queue_close, which re-raises only
ClusterException values. -/
def queue_close (env : WorkerEnv) (request : Request) (delivered : Bool)
    (queue_name : String) : Invocation :=
  let w := execute_queue_close env request queue_name
  { spawnedWorker := true
    workerTrace := w.trace
    outcome :=
      if delivered then
        getOrRaiseClusterStyle request w.msg "openlavaweb/exception.html"
      else
        ParentOutcome.uncaught PyExc.queueEmpty }

/-- Embedding of the mutating branch of queue_activate. -/
def queue_activate (env : WorkerEnv) (request : Request) (delivered : Bool)
    (queue_name : String) : Invocation :=
  let w := execute_queue_activate env request queue_name
  { spawnedWorker := true
    workerTrace := w.trace
    outcome :=
      if delivered then
        getOrRaiseExceptionStyle request w.msg "openlavaweb/exception.html"
      else
        ParentOutcome.uncaught PyExc.queueEmpty }

/-- Embedding of the mutating branch of queue_inactivate. -/
def queue_inactivate (env : WorkerEnv) (request : Request) (delivered : Bool)
    (queue_name : String) : Invocation :=
  let w := execute_queue_inactivate env request queue_name
  { spawnedWorker := true
    workerTrace := w.trace
    outcome :=
      if delivered then
        getOrRaiseExceptionStyle request w.msg "openlavaweb/exception.html"
      else
        ParentOutcome.uncaught PyExc.queueEmpty }

/-- Embedding of the mutating branch of host_open. -/
def host_open (env : WorkerEnv) (request : Request) (delivered : Bool)
    (host_name : String) : Invocation :=
  let w := execute_host_open env request host_name
  { spawnedWorker := true
    workerTrace := w.trace
    outcome :=
      if delivered then
        getOrRaiseExceptionStyle request w.msg "openlavaweb/exception.html"
      else
        ParentOutcome.uncaught PyExc.queueEmpty }

/-- Embedding of the mutating branch of host_close, which re-raises only
ClusterException values. -/
def host_close (env : WorkerEnv) (request : Request) (delivered : Bool)
    (host_name : String) : Invocation :=
  let w := execute_host_close env request host_name
  { spawnedWorker := true
    workerTrace := w.trace
    outcome :=
      if delivered then
        getOrRaiseClusterStyle request w.msg "openlavaweb/exception.html"
      else
        ParentOutcome.uncaught PyExc.queueEmpty }

/-- The mutating operations exposed by views.py, with their arguments. -/
inductive MutOp where
  | jobKill : Nat → Nat → MutOp
  | jobSuspend : Nat → Nat → MutOp
  | jobResume : Nat → Nat → MutOp
  | jobRequeue : Nat → Nat → Bool → MutOp
  | jobSubmit : MutOp
  | queueOpen : String → MutOp
  | queueClose : String → MutOp
  | queueActivate : String → MutOp
  | queueInactivate : String → MutOp
  | hostOpen : String → MutOp
  | hostClose : String → MutOp
deriving DecidableEq, Repr

/-- Dispatch to the worker function of an operation. -/
def runWorker (op : MutOp) (env : WorkerEnv) (request : Request) : WorkerRun :=
  match op with
  | .jobKill j a => execute_job_kill env request j a
  | .jobSuspend j a => execute_job_suspend env request j a
  | .jobResume j a => execute_job_resume env request j a
  | .jobRequeue j a h => execute_job_requeue env request j a h
  | .jobSubmit => execute_job_submit env request
  | .queueOpen n => execute_queue_open env request n
  | .queueClose n => execute_queue_close env request n
  | .queueActivate n => execute_queue_activate env request n
  | .queueInactivate n => execute_queue_inactivate env request n
  | .hostOpen n => execute_host_open env request n
  | .hostClose n => execute_host_close env request n

/-- Dispatch to the parent view of an operation. -/
def invoke (op : MutOp) (env : WorkerEnv) (request : Request)
    (delivered : Bool) : Invocation :=
  match op with
  | .jobKill j a => job_kill env request delivered j a
  | .jobSuspend j a => job_suspend env request delivered j a
  | .jobResume j a => job_resume env request delivered j a
  | .jobRequeue j a h => job_requeue env request delivered j a h
  | .jobSubmit => job_submit env request delivered
  | .queueOpen n => queue_open env request delivered n
  | .queueClose n => queue_close env request delivered n
  | .queueActivate n => queue_activate env request delivered n
  | .queueInactivate n => queue_inactivate env request delivered n
  | .hostOpen n => host_open env request delivered n
  | .hostClose n => host_close env request delivered n

/-- Scheduler calls among the worker events: the fresh entity resolution
and the mutating call. -/
def isSchedCall : Event → Bool
  | Event.schedResolve => true
  | Event.schedMutate => true
  | _ => false

/-- Holds of a trace that performs some scheduler call before the
identity drop has succeeded. -/
def schedBeforeDrop : List Event → Bool
  | [] => false
  | Event.setuidDone :: _ => false
  | e :: rest => if isSchedCall e then true else schedBeforeDrop rest

/-- The identity drop fails for this invocation: either the user lookup
fails or setuid on the resolved uid fails. -/
def identityDropFails (env : WorkerEnv) (request : Request) : Bool :=
  match env.getpwnam request.username with
  | none => true
  | some uid =>
    match env.setuidOk uid with
    | true => false
    | false => true

/-- Recognizes a caller-visible FAIL envelope whose record names the
given exception class. -/
def outcomeIsFailureOfClass (o : ParentOutcome) (cls : String) : Bool :=
  match o with
  | ParentOutcome.response r =>
      match r.data with
      | Json.obj fields =>
          (r.status == "FAIL") &&
          (match jsonFieldLookup fields "exception_class" with
           | some (Json.str s) => s == cls
           | _ => false)
      | _ => false
  | _ => false

/-- Embedding of QueueBase.json_attributes. -/
def QueueBase.json_attributes : List String :=
  ["name", "description", "priority", "max_jobs_per_user", "max_slots_per_user",
   "max_jobs_per_processor", "max_slots_per_processor", "allowed_users",
   "allowed_hosts", "runtime_limits", "host_specification", "attributes",
   "statuses", "max_slots", "total_slots", "num_running_slots",
   "num_pending_slots", "num_suspended_slots", "num_reserved_slots",
   "max_jobs", "total_jobs", "num_running_jobs", "num_pending_jobs",
   "num_suspended_jobs", "admins", "dispatch_windows", "max_slots_per_job",
   "max_jobs_per_host", "max_slots_per_host", "resource_requirements",
   "min_slots_per_job", "default_slots_per_job", "checkpoint_data_directory",
   "checkpoint_period", "is_accepting_jobs", "is_dispatching_jobs", "jobs",
   "cluster_type"]

/-- The key list of each reference stub built by ClusterEncoder.check,
read off the stub dict literals in the source. -/
def stubKeys : EntityKind → List String
  | EntityKind.executionHost => ["type", "name", "num_slots", "url"]
  | EntityKind.host => ["type", "name", "url"]
  | EntityKind.job =>
      ["type", "name", "job_id", "array_index", "url", "user_name",
       "user_url", "status", "submit_time", "start_time", "end_time"]
  | EntityKind.queue => ["type", "name", "url"]
  | EntityKind.other => []

/-- Observer: the key list of the stub produced by check, when check
produces a stub dict. -/
def checkKeysOf (obj : PyObj) : Option (List String) :=
  match ClusterEncoder.check obj with
  | some (PyObj.vDict fs) => some (dictKeys fs)
  | _ => none

/-! ## Concrete sample inputs for witnesses and counterexamples -/

/-- An environment in which every oracle call succeeds. -/
def envAllGood : WorkerEnv :=
  { getpwnam := fun _ => some 500
    setuidOk := fun _ => true
    resolveErr := none
    mutateErr := none
    submitData := Json.null }

/-- An environment whose OS user database knows no account at all. -/
def envNoAccount : WorkerEnv :=
  { getpwnam := fun _ => none
    setuidOk := fun _ => true
    resolveErr := none
    mutateErr := none
    submitData := Json.null }

/-- An environment in which os.setuid always fails. -/
def envDropFails : WorkerEnv :=
  { getpwnam := fun _ => some 500
    setuidOk := fun _ => false
    resolveErr := none
    mutateErr := none
    submitData := Json.null }

/-- An ajax request from the given user. -/
def reqAjax (u : String) : Request :=
  { username := u, is_ajax := true, getJson := false }

/-- A Process instance with no extras, as constructed in cluster/init.py. -/
def sampleProcess : PyObj :=
  PyObj.vEntity "Process" EntityKind.other
    [("hostname", PyObj.vStr "comp01"), ("process_id", PyObj.vInt 4321)]
    (Process.json_attributes [])

/-- A queue object as seen through its attribute table; nested encodings
read only the name attribute. -/
def sampleQueueRef : PyObj :=
  PyObj.vEntity "Queue" EntityKind.queue [("name", PyObj.vStr "normal")]
    QueueBase.json_attributes

/-- A host object carrying only the attribute the reference stub reads. -/
def sampleHostRef : PyObj :=
  PyObj.vEntity "Host" EntityKind.host [("name", PyObj.vStr "comp01")]
    HostBase.json_attributes

/-- An execution host object carrying the two attributes the stub reads. -/
def sampleExecHostRef : PyObj :=
  PyObj.vEntity "ExecutionHost" EntityKind.executionHost
    [("name", PyObj.vStr "comp01"), ("num_slots_for_job", PyObj.vInt 2)]
    HostBase.json_attributes

/-- A fully populated Job instance: one value per name of
JobBase.json_attributes, with the queue and requested_hosts accessors
bound as methods exactly as in JobBase, and one spawned process. -/
def sampleJobFull : PyObj :=
  PyObj.vEntity "Job" EntityKind.job
    [("queue", PyObj.vMethod sampleQueueRef),
     ("submission_host", sampleHostRef),
     ("execution_hosts", PyObj.vList [sampleExecHostRef]),
     ("requested_hosts", PyObj.vMethod (PyObj.vList [sampleHostRef])),
     ("cluster_type", PyObj.vStr "openlava"),
     ("admins", PyObj.vList [PyObj.vStr "openlava"]),
     ("job_id", PyObj.vInt 9767),
     ("array_index", PyObj.vInt 0),
     ("begin_time", PyObj.vInt 0),
     ("command", PyObj.vStr "sleep 100"),
     ("consumed_resources", PyObj.vList []),
     ("cpu_time", PyObj.vInt 5),
     ("dependency_condition", PyObj.vStr ""),
     ("email_user", PyObj.vStr ""),
     ("end_time", PyObj.vInt 0),
     ("error_file_name", PyObj.vStr "/dev/null"),
     ("input_file_name", PyObj.vStr "/dev/null"),
     ("max_requested_slots", PyObj.vInt 1),
     ("name", PyObj.vStr "sleep 100"),
     ("options", PyObj.vList []),
     ("output_file_name", PyObj.vStr "/dev/null"),
     ("pending_reasons", PyObj.vStr ""),
     ("predicted_start_time", PyObj.vInt 0),
     ("priority", PyObj.vInt (-1)),
     ("process_id", PyObj.vInt 1234),
     ("processes", PyObj.vList [sampleProcess]),
     ("project_names", PyObj.vList []),
     ("requested_resources", PyObj.vStr ""),
     ("requested_slots", PyObj.vInt 1),
     ("reservation_time", PyObj.vInt 0),
     ("runtime_limits", PyObj.vList []),
     ("start_time", PyObj.vInt 10),
     ("status", PyObj.vStr "JOB_STAT_RUN"),
     ("submit_time", PyObj.vInt 5),
     ("suspension_reasons", PyObj.vStr ""),
     ("termination_time", PyObj.vInt 0),
     ("user_name", PyObj.vStr "alice"),
     ("user_priority", PyObj.vInt (-1)),
     ("is_pending", PyObj.vBool false),
     ("is_running", PyObj.vBool true),
     ("is_suspended", PyObj.vBool false),
     ("is_failed", PyObj.vBool false),
     ("was_killed", PyObj.vBool false),
     ("is_completed", PyObj.vBool false)]
    JobBase.json_attributes

/-- Observer: the key list of the encoding of the single nested Process
inside the full serialization of sampleJobFull. -/
def nestedProcessKeys : Option (List String) :=
  match jsonDumps 8 sampleJobFull with
  | some (Json.obj fields) =>
    match jsonFieldLookup fields "processes" with
    | some (Json.arr [Json.obj pf]) => some (dictKeys pf)
    | _ => none
  | _ => none

/-- Attribute table of a fully populated Host instance: one value per
name of HostBase.json_attributes, with the jobs and load_information
accessors bound as methods exactly as in HostBase. -/
def sampleHostAttrs : List (String × PyObj) :=
    [("admins", PyObj.vList [PyObj.vStr "openlava"]),
     ("name", PyObj.vStr "comp01"),
     ("host_name", PyObj.vStr "comp01"),
     ("description", PyObj.vStr ""),
     ("has_checkpoint_support", PyObj.vBool true),
     ("host_model", PyObj.vStr "IntelI5"),
     ("host_type", PyObj.vStr "linux"),
     ("resources", PyObj.vList []),
     ("is_busy", PyObj.vBool false),
     ("is_closed", PyObj.vBool false),
     ("is_down", PyObj.vBool false),
     ("max_jobs", PyObj.vInt 2),
     ("max_processors", PyObj.vInt 1),
     ("max_ram", PyObj.vInt 992),
     ("max_slots", PyObj.vInt 2),
     ("max_swap", PyObj.vInt 509),
     ("max_tmp", PyObj.vInt 64002),
     ("num_reserved_slots", PyObj.vInt 0),
     ("num_running_jobs", PyObj.vInt 0),
     ("num_running_slots", PyObj.vInt 0),
     ("num_suspended_jobs", PyObj.vInt 0),
     ("num_suspended_slots", PyObj.vInt 0),
     ("statuses", PyObj.vList [PyObj.vStr "HOST_STAT_OK"]),
     ("total_jobs", PyObj.vInt 0),
     ("total_slots", PyObj.vInt 0),
     ("jobs", PyObj.vMethod (PyObj.vList [])),
     ("load_information", PyObj.vMethod (PyObj.vList [])),
     ("cluster_type", PyObj.vStr "openlava")]

/-- A fully populated Host instance over sampleHostAttrs. -/
def sampleHostFull : PyObj :=
  PyObj.vEntity "Host" EntityKind.host sampleHostAttrs HostBase.json_attributes

/-- Observer: the fields of the full-mode projection of sampleHostFull. -/
def sampleHostFullFields : List (String × PyObj) :=
  match ClusterEncoder.default sampleHostFull with
  | some (PyObj.vDict fs) => fs
  | _ => []

/-- A job-not-found failure carrying a diagnostic extra, as raise sites
may construct it. -/
def sampleJobNotFoundExc : ClusterException :=
  { kind := ClusterKind.noSuchJob
    message := "Job not found"
    extras := [("job_id", Json.num 1000)] }

/-- A failure whose extra reuses the name of the status base field. -/
def sampleStatusOverrideExc : ClusterException :=
  { kind := ClusterKind.clusterInterfaceError
    message := "boom"
    extras := [("status", Json.str "Broken")] }

/-- Sample base timestamps for the datetime view witness. -/
def sampleJobTimes : JobTimes :=
  { begin_time := 100
    predicted_start_time := 200
    end_time := 300
    reservation_time := 400
    start_time := 500
    submit_time := 600
    termination_time := 700 }

/-- A sample cluster with one reachable and one down host. -/
def sampleCluster : ClusterView :=
  { hosts := some
      [{ host_name := "comp01", is_down := false },
       { host_name := "comp02", is_down := true }] }

/-- The parent outcome the source produces when the one-shot channel is
empty: the blocking get of job_submit never returns, every other endpoint
raises the raw channel-empty error past its ClusterException handler. -/
def emptyChannelOutcome : MutOp → ParentOutcome
  | MutOp.jobSubmit => ParentOutcome.hang
  | _ => ParentOutcome.uncaught PyExc.queueEmpty

/-- The parent outcome the source produces when the acting identity has
no OS account: the KeyError raised by pwd.getpwnam inside the worker is
re-raised in the parent and escapes (queue_close and host_close instead
return the exception object, since they only re-raise ClusterException
values). -/
def unknownIdentityOutcome : MutOp → ParentOutcome
  | MutOp.queueClose _ => ParentOutcome.returnedObject PyExc.keyError
  | MutOp.hostClose _ => ParentOutcome.returnedObject PyExc.keyError
  | _ => ParentOutcome.uncaught PyExc.keyError

/-! ## Theorems -/

/-- Helper: the shared worker skeleton performs no scheduler call before
the identity drop has succeeded, and performs none at all when the drop
fails. -/
theorem privilegedWorkerRun_drop (env : WorkerEnv) (request : Request)
    (b : Bool) (s : Msg) :
    schedBeforeDrop (privilegedWorkerRun env request b s).trace = false ∧
    (identityDropFails env request = true →
      List.filter isSchedCall (privilegedWorkerRun env request b s).trace = []) := by
  unfold privilegedWorkerRun identityDropFails
  cases hpw : env.getpwnam request.username with
  | none => dsimp only; exact ⟨by decide, fun _ => by decide⟩
  | some uid =>
    dsimp only
    cases hsu : env.setuidOk uid with
    | false => dsimp only; exact ⟨by decide, fun _ => by decide⟩
    | true =>
      cases b <;> cases env.resolveErr <;> cases env.mutateErr <;>
        dsimp only <;>
        exact ⟨by decide, fun h => absurd h (by decide)⟩

/-- C1: for every mutating operation (kill, suspend, resume, requeue and
submit of a job, open and close of a host, open, close, activate and
inactivate of a queue), the worker performs no scheduler call, neither
the fresh resolution of the target entity nor the mutating call, before
the drop of effective identity to the resolved acting user id has
succeeded; and if the identity lookup or the drop fails, the worker
performs no scheduler call at all in that invocation. -/
theorem privilege_drop_ordering (op : MutOp) (env : WorkerEnv) (req : Request) :
    schedBeforeDrop (runWorker op env req).trace = false ∧
    (identityDropFails env req = true →
      List.filter isSchedCall (runWorker op env req).trace = []) := by
  cases op <;>
    exact privilegedWorkerRun_drop env req _ _

/-- Witness for C1 at a concrete failing drop: setuid always fails, the
kill worker performs zero scheduler calls. -/
theorem privilege_drop_ordering_witness :
    identityDropFails envDropFails (reqAjax "alice") = true ∧
    schedBeforeDrop (runWorker (MutOp.jobKill 9767 0) envDropFails
      (reqAjax "alice")).trace = false ∧
    List.filter isSchedCall (runWorker (MutOp.jobKill 9767 0) envDropFails
      (reqAjax "alice")).trace = [] := by
  refine ⟨rfl, ?_, ?_⟩
  · exact (privilege_drop_ordering (MutOp.jobKill 9767 0) envDropFails
      (reqAjax "alice")).1
  · exact (privilege_drop_ordering (MutOp.jobKill 9767 0) envDropFails
      (reqAjax "alice")).2 rfl

/-- C2 counterexample: when the kill worker exits without enqueuing, the
parent raises the raw channel-empty fault (which its ClusterException
handler does not catch) instead of synthesizing a backend-interface-error
response, and the submit endpoint blocks forever on its blocking get. -/
theorem worker_no_message_raw_fault_cex :
    (job_kill envAllGood (reqAjax "alice") false 9767 0).outcome =
      ParentOutcome.uncaught PyExc.queueEmpty ∧
    outcomeIsFailureOfClass
      (job_kill envAllGood (reqAjax "alice") false 9767 0).outcome
      "ClusterInterfaceError" = false ∧
    (job_submit envAllGood (reqAjax "alice") false).outcome =
      ParentOutcome.hang := by
  exact ⟨rfl, rfl, rfl⟩

/-- C2 amended: for every mutating invocation whose worker exits without
enqueuing a message, the endpoints that read the channel with a
non-blocking get raise the raw channel-empty fault uncaught, and the
submit endpoint, which reads with a blocking get and has no timeout,
hangs; no backend-interface-error is synthesized. -/
theorem worker_no_message_behavior (op : MutOp) (env : WorkerEnv)
    (req : Request) :
    (invoke op env req false).outcome = emptyChannelOutcome op := by
  cases op <;> rfl

/-- C3 counterexample: with no OS account for the acting identity, the
worker is still spawned, and the invocation ends in a raw uncaught
KeyError, not in a permission-denied failure. -/
theorem unknown_identity_spawned_cex :
    (job_kill envNoAccount (reqAjax "bob") true 9767 0).spawnedWorker = true ∧
    (job_kill envNoAccount (reqAjax "bob") true 9767 0).outcome =
      ParentOutcome.uncaught PyExc.keyError ∧
    outcomeIsFailureOfClass
      (job_kill envNoAccount (reqAjax "bob") true 9767 0).outcome
      "PermissionDeniedError" = false := by
  exact ⟨rfl, rfl, rfl⟩

/-- C3 amended: for every mutating invocation whose acting identity has
no corresponding OS account, the identity lookup fails inside the
already-spawned worker with a KeyError before any scheduler call (so
zero scheduler calls occur), and the parent surfaces that KeyError as a
raw re-raised fault (or, for queue_close and host_close, returns the
exception object), never as a permission-denied condition. -/
theorem unknown_identity_behavior (op : MutOp) (env : WorkerEnv)
    (req : Request) (h : env.getpwnam req.username = none) :
    (invoke op env req true).spawnedWorker = true ∧
    List.filter isSchedCall (invoke op env req true).workerTrace = [] ∧
    (invoke op env req true).outcome = unknownIdentityOutcome op := by
  cases op <;>
    simp only [invoke, job_kill, job_suspend, job_resume, job_requeue,
      job_submit, queue_open, queue_close, queue_activate, queue_inactivate,
      host_open, host_close, execute_job_kill, execute_job_suspend,
      execute_job_resume, execute_job_requeue, execute_job_submit,
      execute_queue_open, execute_queue_close, execute_queue_activate,
      execute_queue_inactivate, execute_host_open, execute_host_close,
      privilegedWorkerRun, h, unknownIdentityOutcome,
      getOrRaiseExceptionStyle, getOrRaiseClusterStyle] <;>
    exact ⟨by trivial, by decide, by trivial⟩

/-- Witness for C3 amended at a concrete input: user bob has no account,
the kill invocation performs no scheduler call and ends in the raw
KeyError outcome. -/
theorem unknown_identity_behavior_witness :
    envNoAccount.getpwnam (reqAjax "bob").username = none ∧
    List.filter isSchedCall
      (invoke (MutOp.jobKill 9767 0) envNoAccount (reqAjax "bob")
        true).workerTrace = [] ∧
    (invoke (MutOp.jobKill 9767 0) envNoAccount (reqAjax "bob") true).outcome =
      unknownIdentityOutcome (MutOp.jobKill 9767 0) := by
  refine ⟨rfl, ?_, ?_⟩
  · exact (unknown_identity_behavior (MutOp.jobKill 9767 0) envNoAccount
      (reqAjax "bob") rfl).2.1
  · exact (unknown_identity_behavior (MutOp.jobKill 9767 0) envNoAccount
      (reqAjax "bob") rfl).2.2

/-- C4: evaluation of a fully successful ajax kill invocation.  The
worker passes the text Job Killed positionally to create_js_response, so
it lands in the data slot of the envelope while the message slot stays
empty; the claimed envelope (data null, message Job Killed) is what every
sibling endpoint produces by passing message by keyword, and what the
specification scenario states. -/
theorem job_kill_success_envelope_eval :
    job_kill envAllGood (reqAjax "alice") true 9767 0 =
      { spawnedWorker := true
        workerTrace := [Event.getpwnamOk, Event.setuidDone,
          Event.schedResolve, Event.schedMutate]
        outcome := ParentOutcome.response
          { status := "OK", data := Json.str "Job Killed", message := "" } } := by
  rfl

/-- Helper: the any-based membership test of dictInsert agrees with key
membership. -/
theorem any_key_iff_mem {α : Type} (fs : List (String × α)) (k : String) :
    fs.any (fun p => p.1 = k) = true ↔ k ∈ dictKeys fs := by
  simp only [List.any_eq_true, dictKeys, List.mem_map, decide_eq_true_eq]

/-- Helper: assigning a key whose first binding is at the head replaces
the head and rewrites the tail with the replacement map. -/
theorem dictInsert_cons_eq {α : Type} (v0 : α) (rest : List (String × α))
    (k : String) (v : α) :
    dictInsert ((k, v0) :: rest) k v =
      (k, v) :: rest.map (fun p => if p.1 = k then (k, v) else p) := by
  unfold dictInsert
  rw [if_pos]
  · simp
  · simp

/-- Helper: assigning a key distinct from the head key skips the head. -/
theorem dictInsert_cons_ne {α : Type} (k0 : String) (v0 : α)
    (rest : List (String × α)) (k : String) (v : α) (h : k0 ≠ k) :
    dictInsert ((k0, v0) :: rest) k v = (k0, v0) :: dictInsert rest k v := by
  unfold dictInsert
  by_cases ha : rest.any (fun p => p.1 = k) = true
  · rw [if_pos, if_pos ha]
    · simp [h]
    · simp [List.any_cons, ha]
  · rw [if_neg, if_neg ha]
    · simp
    · simp [List.any_cons, ha, h]

/-- Helper: the replacement map leaves the lookup of other keys
unchanged. -/
theorem jsonFieldLookup_map_replace_ne {α : Type} (fs : List (String × α))
    (k k2 : String) (v : α) (h : k2 ≠ k) :
    jsonFieldLookup (fs.map (fun p => if p.1 = k then (k, v) else p)) k2 =
      jsonFieldLookup fs k2 := by
  induction fs with
  | nil => rfl
  | cons p rest ih =>
    obtain ⟨k0, v0⟩ := p
    by_cases hp : k0 = k
    · subst hp
      have h1 : ¬(k0 = k2) := fun he => h he.symm
      have hhead : (if (k0, v0).1 = k0 then (k0, v) else (k0, v0)) = (k0, v) :=
        if_pos rfl
      rw [List.map_cons, hhead]
      simp only [jsonFieldLookup, if_neg h1]
      exact ih
    · have hhead : (if (k0, v0).1 = k then (k, v) else (k0, v0)) = (k0, v0) :=
        if_neg hp
      rw [List.map_cons, hhead]
      simp only [jsonFieldLookup]
      by_cases he : k0 = k2
      · simp [he]
      · simp only [if_neg he]
        exact ih

/-- Helper: dict assignment makes the assigned key map to the assigned
value. -/
theorem jsonFieldLookup_dictInsert_self {α : Type} (fs : List (String × α))
    (k : String) (v : α) :
    jsonFieldLookup (dictInsert fs k v) k = some v := by
  induction fs with
  | nil => simp [dictInsert, jsonFieldLookup]
  | cons p rest ih =>
    obtain ⟨k0, v0⟩ := p
    by_cases hp : k0 = k
    · subst hp
      rw [dictInsert_cons_eq]
      simp [jsonFieldLookup]
    · rw [dictInsert_cons_ne k0 v0 rest k v hp]
      simp only [jsonFieldLookup, if_neg hp]
      exact ih

/-- Helper: dict assignment leaves the binding of every other key
unchanged. -/
theorem jsonFieldLookup_dictInsert_ne {α : Type} (fs : List (String × α))
    (k k2 : String) (v : α) (h : k2 ≠ k) :
    jsonFieldLookup (dictInsert fs k v) k2 = jsonFieldLookup fs k2 := by
  induction fs with
  | nil =>
    have h1 : ¬(k = k2) := fun he => h he.symm
    simp [dictInsert, jsonFieldLookup, h1]
  | cons p rest ih =>
    obtain ⟨k0, v0⟩ := p
    by_cases hp : k0 = k
    · subst hp
      rw [dictInsert_cons_eq]
      have h1 : ¬(k0 = k2) := fun he => h he.symm
      simp only [jsonFieldLookup, if_neg h1]
      exact jsonFieldLookup_map_replace_ne rest k0 k2 v h
    · rw [dictInsert_cons_ne k0 v0 rest k v hp]
      simp only [jsonFieldLookup]
      by_cases he : k0 = k2
      · simp [he]
      · simp only [if_neg he]
        exact ih

/-- Helper: the replacement map does not change the key list. -/
theorem dictKeys_map_replace {α : Type} (fs : List (String × α))
    (k : String) (v : α) :
    dictKeys (fs.map (fun p => if p.1 = k then (k, v) else p)) =
      dictKeys fs := by
  induction fs with
  | nil => rfl
  | cons p rest ih =>
    obtain ⟨k0, v0⟩ := p
    by_cases hp : k0 = k
    · subst hp
      simp only [List.map_cons, if_pos rfl, dictKeys] at ih ⊢
      simp [ih]
    · simp only [List.map_cons, if_neg hp, dictKeys] at ih ⊢
      simp [ih]

/-- Helper: the key list of a dict after an assignment. -/
theorem dictKeys_dictInsert {α : Type} (fs : List (String × α))
    (k : String) (v : α) :
    dictKeys (dictInsert fs k v) =
      if k ∈ dictKeys fs then dictKeys fs else dictKeys fs ++ [k] := by
  unfold dictInsert
  by_cases ha : fs.any (fun p => p.1 = k) = true
  · rw [if_pos ha, dictKeys_map_replace, if_pos ((any_key_iff_mem fs k).mp ha)]
  · rw [if_neg ha, if_neg (fun hm => ha ((any_key_iff_mem fs k).mpr hm))]
    simp [dictKeys]

/-- Helper: keys of a cons. -/
theorem dictKeys_cons {α : Type} (p : String × α) (rest : List (String × α)) :
    dictKeys (p :: rest) = p.1 :: dictKeys rest := rfl

/-- Helper: folding assignments whose keys avoid k leaves the binding of
k unchanged. -/
theorem foldl_dictInsert_lookup_not_mem {α : Type} (ps : List (String × α))
    (acc : List (String × α)) (k : String) (h : k ∉ dictKeys ps) :
    jsonFieldLookup (ps.foldl (fun d p => dictInsert d p.1 p.2) acc) k =
      jsonFieldLookup acc k := by
  induction ps generalizing acc with
  | nil => rfl
  | cons p rest ih =>
    have hk : k ≠ p.1 := by
      intro he; apply h; rw [dictKeys_cons, he]; exact List.mem_cons_self _ _
    have h2 : k ∉ dictKeys rest := by
      intro hm; apply h; rw [dictKeys_cons]; exact List.mem_cons_of_mem _ hm
    rw [List.foldl_cons, ih (dictInsert acc p.1 p.2) h2,
      jsonFieldLookup_dictInsert_ne acc p.1 k p.2 hk]

/-- Helper: with pairwise distinct assignment keys, every assigned pair
is found by lookup after the fold. -/
theorem foldl_dictInsert_lookup_mem {α : Type} (ps : List (String × α))
    (acc : List (String × α)) (k : String) (v : α)
    (hnd : (dictKeys ps).Nodup) (hmem : (k, v) ∈ ps) :
    jsonFieldLookup (ps.foldl (fun d p => dictInsert d p.1 p.2) acc) k =
      some v := by
  induction ps generalizing acc with
  | nil => cases hmem
  | cons p rest ih =>
    rw [List.foldl_cons]
    rw [dictKeys_cons] at hnd
    rcases List.mem_cons.mp hmem with he | hm
    · subst he
      have hk : k ∉ dictKeys rest := (List.nodup_cons.mp hnd).1
      rw [foldl_dictInsert_lookup_not_mem rest _ k hk]
      exact jsonFieldLookup_dictInsert_self acc k v
    · exact ih (dictInsert acc p.1 p.2) (List.nodup_cons.mp hnd).2 hm

/-- Helper: key membership after the fold is membership in the start
dict or among the assigned keys. -/
theorem foldl_dictInsert_mem_keys {α : Type} (ps : List (String × α))
    (acc : List (String × α)) (k : String) :
    k ∈ dictKeys (ps.foldl (fun d p => dictInsert d p.1 p.2) acc) ↔
      (k ∈ dictKeys acc ∨ k ∈ dictKeys ps) := by
  induction ps generalizing acc with
  | nil => simp [dictKeys]
  | cons p rest ih =>
    rw [List.foldl_cons, ih (dictInsert acc p.1 p.2), dictKeys_dictInsert,
      dictKeys_cons]
    by_cases hm : p.1 ∈ dictKeys acc
    · rw [if_pos hm]
      constructor
      · intro h
        rcases h with h | h
        · exact Or.inl h
        · exact Or.inr (List.mem_cons_of_mem _ h)
      · intro h
        rcases h with h | h
        · exact Or.inl h
        · rcases List.mem_cons.mp h with h | h
          · exact Or.inl (by rw [h]; exact hm)
          · exact Or.inr h
    · rw [if_neg hm]
      constructor
      · intro h
        rcases h with h | h
        · rcases List.mem_append.mp h with h | h
          · exact Or.inl h
          · exact Or.inr (List.mem_cons.mpr (Or.inl (List.mem_singleton.mp h)))
        · exact Or.inr (List.mem_cons_of_mem _ h)
      · intro h
        rcases h with h | h
        · exact Or.inl (List.mem_append.mpr (Or.inl h))
        · rcases List.mem_cons.mp h with h | h
          · exact Or.inl (List.mem_append.mpr (Or.inr (List.mem_singleton.mpr h)))
          · exact Or.inr h

/-- Helper: with pairwise distinct assignment keys, all disjoint from the
start dict, the fold is a plain append. -/
theorem foldl_dictInsert_append {α : Type} (ps : List (String × α))
    (acc : List (String × α)) (hnd : (dictKeys ps).Nodup)
    (hdisj : ∀ k2, k2 ∈ dictKeys ps → k2 ∉ dictKeys acc) :
    ps.foldl (fun d p => dictInsert d p.1 p.2) acc = acc ++ ps := by
  induction ps generalizing acc with
  | nil => simp
  | cons p rest ih =>
    rw [dictKeys_cons] at hnd
    have hp : p.1 ∉ dictKeys acc :=
      hdisj p.1 (by rw [dictKeys_cons]; exact List.mem_cons_self _ _)
    have h1 : dictInsert acc p.1 p.2 = acc ++ [p] := by
      unfold dictInsert
      rw [if_neg (fun hc => hp ((any_key_iff_mem acc p.1).mp hc))]
    rw [List.foldl_cons, h1,
      ih (acc ++ [p]) (List.nodup_cons.mp hnd).2 ?_]
    · simp
    · intro k2 hk2 hmem
      have hkeys : dictKeys (acc ++ [p]) = dictKeys acc ++ [p.1] := by
        simp [dictKeys]
      rw [hkeys, List.mem_append, List.mem_singleton] at hmem
      rcases hmem with hmem | hmem
      · exact hdisj k2 (by rw [dictKeys_cons]; exact List.mem_cons_of_mem _ hk2)
          hmem
      · exact (List.nodup_cons.mp hnd).1 (hmem ▸ hk2)

/-- C7 counterexample: a failure raised with a job_id extra produces a
transportable record with only the class and message keys; the extra is
absent. -/
theorem json_response_drops_extras_cex :
    dictKeys (ClusterException.json_response sampleJobNotFoundExc) =
      ["exception_class", "message"] ∧
    jsonFieldLookup (ClusterException.json_response sampleJobNotFoundExc)
      "job_id" = none := by
  exact ⟨rfl, rfl⟩

/-- C7 amended: for every taxonomy failure, the generic transportable
record operation yields a record holding exactly the exception class name
and the message; the extra fields supplied at raise time are not
included. -/
theorem json_response_fields (e : ClusterException) :
    dictKeys e.json_response = ["exception_class", "message"] ∧
    jsonFieldLookup e.json_response "exception_class" =
      some (Json.str e.kind.className) ∧
    jsonFieldLookup e.json_response "message" = some (Json.str e.message) := by
  exact ⟨rfl, rfl, rfl⟩

/-- C10 counterexample: an extra named status overrides the base Fail
entry of to_json, so the value of the status key is not Fail. -/
theorem to_json_status_override_cex :
    ClusterException.to_json sampleStatusOverrideExc =
      [("status", Json.str "Broken"), ("type", Json.str "Exception"),
       ("message", Json.str "boom")] ∧
    jsonFieldLookup (ClusterException.to_json sampleStatusOverrideExc)
      "status" = some (Json.str "Broken") := by
  exact ⟨rfl, rfl⟩

/-- C10 amended: for every taxonomy failure whose extra keyword fields
have pairwise distinct names, to_json produces an object whose keys are
exactly status, type and message plus one key per extra field; each extra
maps to its supplied value (overriding the base entry on a name
collision), and status maps to Fail, type to Exception and message to the
supplied message whenever no extra reuses that name. -/
theorem to_json_fields (e : ClusterException)
    (hnd : (dictKeys e.extras).Nodup) :
    (∀ k, k ∈ dictKeys e.to_json ↔
      (k = "status" ∨ k = "type" ∨ k = "message" ∨ k ∈ dictKeys e.extras)) ∧
    (∀ k v, (k, v) ∈ e.extras →
      jsonFieldLookup e.to_json k = some v) ∧
    ("status" ∉ dictKeys e.extras →
      jsonFieldLookup e.to_json "status" = some (Json.str "Fail")) ∧
    ("type" ∉ dictKeys e.extras →
      jsonFieldLookup e.to_json "type" = some (Json.str "Exception")) ∧
    ("message" ∉ dictKeys e.extras →
      jsonFieldLookup e.to_json "message" = some (Json.str e.message)) := by
  unfold ClusterException.to_json
  refine ⟨?_, ?_, ?_, ?_, ?_⟩
  · intro k
    rw [foldl_dictInsert_mem_keys]
    have hbase : dictKeys
        [("status", Json.str "Fail"), ("type", Json.str "Exception"),
         ("message", Json.str e.message)] = ["status", "type", "message"] := rfl
    rw [hbase]
    simp only [List.mem_cons, List.not_mem_nil, or_false]
    tauto
  · intro k v hm
    exact foldl_dictInsert_lookup_mem e.extras _ k v hnd hm
  · intro hs
    rw [foldl_dictInsert_lookup_not_mem e.extras _ "status" hs]
    rfl
  · intro ht
    rw [foldl_dictInsert_lookup_not_mem e.extras _ "type" ht]
    rfl
  · intro hm
    rw [foldl_dictInsert_lookup_not_mem e.extras _ "message" hm]
    rfl

/-- Witness for C10 amended: the job-not-found failure with a job_id
extra keeps the base status entry and carries the extra. -/
theorem to_json_fields_witness :
    jsonFieldLookup (ClusterException.to_json sampleJobNotFoundExc) "job_id" =
      some (Json.num 1000) ∧
    jsonFieldLookup (ClusterException.to_json sampleJobNotFoundExc) "status" =
      some (Json.str "Fail") := by
  have h := to_json_fields sampleJobNotFoundExc (by decide)
  refine ⟨h.2.1 "job_id" (Json.num 1000) ?_, h.2.2.1 (by decide)⟩
  simp [sampleJobNotFoundExc]

/-- Helper: the encode loop of default produces one field per manifest
name, in manifest order. -/
theorem defaultFields_keys (attrs : List (String × PyObj))
    (manifest : List String) (fields : List (String × PyObj))
    (h : ClusterEncoder.defaultFields attrs manifest = some fields) :
    dictKeys fields = manifest := by
  induction manifest generalizing fields with
  | nil =>
    simp only [ClusterEncoder.defaultFields, Option.some.injEq] at h
    rw [← h]; rfl
  | cons name rest ih =>
    simp only [ClusterEncoder.defaultFields] at h
    cases hg : pyGetattr attrs name with
    | none => rw [hg] at h; cases h
    | some raw =>
      rw [hg] at h
      dsimp only at h
      cases hd : ClusterEncoder.defaultField raw with
      | none => rw [hd] at h; cases h
      | some v =>
        rw [hd] at h
        dsimp only at h
        cases hr : ClusterEncoder.defaultFields attrs rest with
        | none => rw [hr] at h; cases h
        | some tail =>
          rw [hr] at h
          dsimp only at h
          cases h
          rw [dictKeys_cons, ih tail hr]

/-- Helper: every manifest name resolves through getattr and the field
transformation to a value found in the loop output. -/
theorem defaultFields_lookup (attrs : List (String × PyObj))
    (manifest : List String) (fields : List (String × PyObj))
    (h : ClusterEncoder.defaultFields attrs manifest = some fields)
    (name : String) (hmem : name ∈ manifest) :
    ∃ raw v, pyGetattr attrs name = some raw ∧
      ClusterEncoder.defaultField raw = some v ∧
      jsonFieldLookup fields name = some v := by
  induction manifest generalizing fields with
  | nil => cases hmem
  | cons n0 rest ih =>
    simp only [ClusterEncoder.defaultFields] at h
    cases hg : pyGetattr attrs n0 with
    | none => rw [hg] at h; cases h
    | some raw =>
      rw [hg] at h
      dsimp only at h
      cases hd : ClusterEncoder.defaultField raw with
      | none => rw [hd] at h; cases h
      | some v =>
        rw [hd] at h
        dsimp only at h
        cases hr : ClusterEncoder.defaultFields attrs rest with
        | none => rw [hr] at h; cases h
        | some tail =>
          rw [hr] at h
          dsimp only at h
          cases h
          by_cases hne : n0 = name
          · subst hne
            exact ⟨raw, v, hg, hd, by simp [jsonFieldLookup]⟩
          · have hm2 : name ∈ rest := by
              rcases List.mem_cons.mp hmem with he | hm
              · exact absurd he.symm hne
              · exact hm
            obtain ⟨raw2, v2, hg2, hd2, hl⟩ := ih tail hr hm2
            refine ⟨raw2, v2, hg2, hd2, ?_⟩
            simp only [jsonFieldLookup, if_neg hne]
            exact hl

/-- C6: for every entity whose accessors all succeed, the full-mode
projection is the type key naming the entity class merged with exactly
one key per declared attribute name (each value obtained by getattr, a
callable invoked first and a list projected element-wise through check),
and it never contains a key for an attribute absent from the declared
list.  The declared lists in the source are duplicate-free and never
contain the name type, which the two side hypotheses record. -/
theorem full_mode_projection_keys (cn : String) (k : EntityKind)
    (attrs : List (String × PyObj)) (manifest : List String)
    (fields : List (String × PyObj))
    (hnd : manifest.Nodup) (hty : "type" ∉ manifest)
    (h : ClusterEncoder.default (PyObj.vEntity cn k attrs manifest) =
      some (PyObj.vDict fields)) :
    dictKeys fields = "type" :: manifest ∧
    jsonFieldLookup fields "type" = some (PyObj.vStr cn) ∧
    (∀ name, name ∈ manifest →
      ∃ raw v, pyGetattr attrs name = some raw ∧
        ClusterEncoder.defaultField raw = some v ∧
        jsonFieldLookup fields name = some v) ∧
    (∀ key, key ∈ dictKeys fields → key = "type" ∨ key ∈ manifest) := by
  simp only [ClusterEncoder.default] at h
  cases hdf : ClusterEncoder.defaultFields attrs manifest with
  | none => rw [hdf] at h; cases h
  | some fields0 =>
    rw [hdf] at h
    dsimp only at h
    have hkeys0 : dictKeys fields0 = manifest :=
      defaultFields_keys attrs manifest fields0 hdf
    have hnd0 : (dictKeys fields0).Nodup := by rw [hkeys0]; exact hnd
    have hdisj : ∀ k2, k2 ∈ dictKeys fields0 →
        k2 ∉ dictKeys [("type", PyObj.vStr cn)] := by
      intro k2 hk2 hmem
      have he : k2 = "type" := List.mem_singleton.mp hmem
      rw [hkeys0] at hk2
      rw [he] at hk2
      exact hty hk2
    have happ := foldl_dictInsert_append fields0 [("type", PyObj.vStr cn)]
      hnd0 hdisj
    rw [happ] at h
    cases h
    refine ⟨?_, ?_, ?_, ?_⟩
    · rw [List.singleton_append, dictKeys_cons, hkeys0]
    · simp [jsonFieldLookup]
    · intro name hmem
      have hne : ¬("type" = name) := fun he => hty (he ▸ hmem)
      obtain ⟨raw, v, hg, hd, hl⟩ :=
        defaultFields_lookup attrs manifest fields0 hdf name hmem
      refine ⟨raw, v, hg, hd, ?_⟩
      simp only [List.singleton_append, jsonFieldLookup, if_neg hne]
      exact hl
    · intro key hkey
      rw [List.singleton_append, dictKeys_cons, hkeys0] at hkey
      exact List.mem_cons.mp hkey

/-- Witness for C6 at the concrete Host instance: its full-mode
projection has exactly the type key followed by the 28 declared host
attributes. -/
theorem full_mode_projection_keys_witness :
    dictKeys sampleHostFullFields = "type" :: HostBase.json_attributes := by
  exact (full_mode_projection_keys "Host" EntityKind.host sampleHostAttrs
    HostBase.json_attributes sampleHostFullFields (by decide) (by decide)
    (by rfl)).1

/-- C5 counterexample: in the full serialization of a Job whose process
list holds one Process, the nested Process is encoded with its complete
declared attribute set (type plus hostname plus process_id), because
check passes values of types other than ExecutionHost, Host, Job and
Queue through unchanged and json.dumps then applies default to them. -/
theorem nested_process_full_mode_cex :
    nestedProcessKeys = some ("type" :: Process.json_attributes []) := by
  rfl

/-- C5 amended: a nested entity value of the ExecutionHost, Host, Job or
Queue classes is emitted by check as a reference stub whose key list is
the fixed stub key list of that class (which for Job and ExecutionHost
includes summary fields beyond type, identity and locator), independent
of the declared manifest; a nested value of any other entity class is
returned by check unchanged, and is therefore later expanded in full
mode by the dumps driver. -/
theorem nested_entity_stub_policy (cn : String) (k : EntityKind)
    (attrs : List (String × PyObj)) (manifest : List String) :
    (k = EntityKind.other →
      ClusterEncoder.check (PyObj.vEntity cn k attrs manifest) =
        some (PyObj.vEntity cn k attrs manifest)) ∧
    (∀ fs, ClusterEncoder.check (PyObj.vEntity cn k attrs manifest) =
        some (PyObj.vDict fs) → dictKeys fs = stubKeys k) := by
  cases k with
  | other =>
    refine ⟨fun _ => rfl, fun fs h => ?_⟩
    have h2 : PyObj.vEntity cn EntityKind.other attrs manifest =
        PyObj.vDict fs := Option.some.inj h
    cases h2
  | executionHost =>
    refine ⟨fun hko => absurd hko (by decide), fun fs h => ?_⟩
    simp only [ClusterEncoder.check] at h
    cases h1 : pyGetattr attrs "name" with
    | none => rw [h1] at h; cases h
    | some n =>
      rw [h1] at h; dsimp only at h
      cases h2 : pyGetattr attrs "num_slots_for_job" with
      | none => rw [h2] at h; cases h
      | some ns =>
        rw [h2] at h; dsimp only at h
        injection h with h3
        injection h3 with h4
        subst h4
        rfl
  | host =>
    refine ⟨fun hko => absurd hko (by decide), fun fs h => ?_⟩
    simp only [ClusterEncoder.check] at h
    cases h1 : pyGetattr attrs "name" with
    | none => rw [h1] at h; cases h
    | some n =>
      rw [h1] at h; dsimp only at h
      injection h with h3
      injection h3 with h4
      subst h4
      rfl
  | queue =>
    refine ⟨fun hko => absurd hko (by decide), fun fs h => ?_⟩
    simp only [ClusterEncoder.check] at h
    cases h1 : pyGetattr attrs "name" with
    | none => rw [h1] at h; cases h
    | some n =>
      rw [h1] at h; dsimp only at h
      injection h with h3
      injection h3 with h4
      subst h4
      rfl
  | job =>
    refine ⟨fun hko => absurd hko (by decide), fun fs h => ?_⟩
    simp only [ClusterEncoder.check] at h
    cases h1 : pyGetattr attrs "name" with
    | none => rw [h1] at h; cases h
    | some n =>
    rw [h1] at h; dsimp only at h
    cases h2 : pyGetattr attrs "job_id" with
    | none => rw [h2] at h; cases h
    | some jid =>
    rw [h2] at h; dsimp only at h
    cases h3 : pyGetattr attrs "array_index" with
    | none => rw [h3] at h; cases h
    | some aidx =>
    rw [h3] at h; dsimp only at h
    cases h4 : pyGetattr attrs "user_name" with
    | none => rw [h4] at h; cases h
    | some un =>
    rw [h4] at h; dsimp only at h
    cases h5 : pyGetattr attrs "status" with
    | none => rw [h5] at h; cases h
    | some st =>
    rw [h5] at h; dsimp only at h
    cases h6 : pyGetattr attrs "submit_time" with
    | none => rw [h6] at h; cases h
    | some sub =>
    rw [h6] at h; dsimp only at h
    cases h7 : pyGetattr attrs "start_time" with
    | none => rw [h7] at h; cases h
    | some sta =>
    rw [h7] at h; dsimp only at h
    cases h8 : pyGetattr attrs "end_time" with
    | none => rw [h8] at h; cases h
    | some fin =>
    rw [h8] at h; dsimp only at h
    injection h with h9
    injection h9 with h10
    subst h10
    rfl

/-- Witness for C5 amended: the Process instance passes through check
unchanged, and the queue stub produced by check for a concrete Queue has
exactly the queue stub keys. -/
theorem nested_entity_stub_policy_witness :
    ClusterEncoder.check sampleProcess = some sampleProcess ∧
    dictKeys [("type", PyObj.vStr "Queue"), ("name", PyObj.vStr "normal"),
      ("url", PyObj.vStr "olw_queue_view/normal")] =
      stubKeys EntityKind.queue := by
  constructor
  · exact (nested_entity_stub_policy "Process" EntityKind.other
      [("hostname", PyObj.vStr "comp01"), ("process_id", PyObj.vInt 4321)]
      (Process.json_attributes [])).1 rfl
  · exact (nested_entity_stub_policy "Queue" EntityKind.queue
      [("name", PyObj.vStr "normal")] QueueBase.json_attributes).2
      [("type", PyObj.vStr "Queue"), ("name", PyObj.vStr "normal"),
       ("url", PyObj.vStr "olw_queue_view/normal")] (by rfl)

/-- C8: the derived datetime views of submit, begin, predicted-start,
reservation and termination times interpret the epoch seconds in the
local zone (datetime.fromtimestamp), the views of start and end times
interpret them as UTC (datetime.utcfromtimestamp), the two
interpretations genuinely differ whenever the local offset is nonzero,
and every view is a pure function of its base attribute. -/
theorem job_time_views_local_utc (tz : Int) (j j2 : JobTimes) :
    (JobTimes.submit_time_datetime_local tz j =
        fromtimestamp tz j.submit_time ∧
      JobTimes.begin_time_datetime_local tz j =
        fromtimestamp tz j.begin_time ∧
      JobTimes.predicted_start_time_datetime_local tz j =
        fromtimestamp tz j.predicted_start_time ∧
      JobTimes.reservation_time_datetime_local tz j =
        fromtimestamp tz j.reservation_time ∧
      JobTimes.termination_time_datetime_local tz j =
        fromtimestamp tz j.termination_time) ∧
    (JobTimes.start_time_datetime_local j = utcfromtimestamp j.start_time ∧
      JobTimes.end_time_datetime_local j = utcfromtimestamp j.end_time) ∧
    (tz ≠ 0 →
      JobTimes.submit_time_datetime_local tz j ≠
        utcfromtimestamp j.submit_time) ∧
    ((j.submit_time = j2.submit_time →
        JobTimes.submit_time_datetime_local tz j =
          JobTimes.submit_time_datetime_local tz j2) ∧
      (j.begin_time = j2.begin_time →
        JobTimes.begin_time_datetime_local tz j =
          JobTimes.begin_time_datetime_local tz j2) ∧
      (j.predicted_start_time = j2.predicted_start_time →
        JobTimes.predicted_start_time_datetime_local tz j =
          JobTimes.predicted_start_time_datetime_local tz j2) ∧
      (j.reservation_time = j2.reservation_time →
        JobTimes.reservation_time_datetime_local tz j =
          JobTimes.reservation_time_datetime_local tz j2) ∧
      (j.termination_time = j2.termination_time →
        JobTimes.termination_time_datetime_local tz j =
          JobTimes.termination_time_datetime_local tz j2) ∧
      (j.start_time = j2.start_time →
        JobTimes.start_time_datetime_local j =
          JobTimes.start_time_datetime_local j2) ∧
      (j.end_time = j2.end_time →
        JobTimes.end_time_datetime_local j =
          JobTimes.end_time_datetime_local j2)) := by
  refine ⟨⟨rfl, rfl, rfl, rfl, rfl⟩, ⟨rfl, rfl⟩, ?_, ?_⟩
  · intro htz
    simp only [JobTimes.submit_time_datetime_local, fromtimestamp,
      utcfromtimestamp]
    omega
  · refine ⟨?_, ?_, ?_, ?_, ?_, ?_, ?_⟩ <;>
      (intro he;
       simp only [JobTimes.submit_time_datetime_local,
         JobTimes.begin_time_datetime_local,
         JobTimes.predicted_start_time_datetime_local,
         JobTimes.reservation_time_datetime_local,
         JobTimes.termination_time_datetime_local,
         JobTimes.start_time_datetime_local,
         JobTimes.end_time_datetime_local, fromtimestamp, utcfromtimestamp,
         he])

/-- Witness for C8 at a concrete offset and job: with a local offset of
3600 seconds the local submit view differs from the UTC interpretation,
and the view is reproducible on an equal base value. -/
theorem job_time_views_local_utc_witness :
    JobTimes.submit_time_datetime_local 3600 sampleJobTimes ≠
      utcfromtimestamp sampleJobTimes.submit_time ∧
    JobTimes.submit_time_datetime_local 3600 sampleJobTimes =
      JobTimes.submit_time_datetime_local 3600 sampleJobTimes := by
  have h := job_time_views_local_utc 3600 sampleJobTimes sampleJobTimes
  exact ⟨h.2.2.1 (by decide), h.2.2.2.1 rfl⟩

/-- Helper: the accumulating loop of problem_hosts is list filtering. -/
theorem problemHostsLoop_eq_filter (hs : List HostEnt) :
    problemHostsLoop hs = hs.filter (fun x => x.is_down) := by
  have haux : ∀ l : List HostEnt, ∀ acc : List HostEnt,
      l.foldl (fun acc h => if h.is_down then acc ++ [h] else acc) acc =
        acc ++ l.filter (fun x => x.is_down) := by
    intro l
    induction l with
    | nil => intro acc; simp
    | cons x rest ih =>
      intro acc
      cases hx : x.is_down with
      | true => simp [List.foldl_cons, hx, ih, List.filter_cons]
      | false => simp [List.foldl_cons, hx, ih, List.filter_cons]
  simpa [problemHostsLoop] using haux hs []

/-- C9: for every cluster whose host collection is available,
problem_hosts returns exactly the hosts whose is_down predicate holds, in
collection order; in particular it is a sublist (hence a subset) of the
host collection. -/
theorem problem_hosts_filter (c : ClusterView) (hs : List HostEnt)
    (h : c.hosts = some hs) :
    c.problem_hosts = some (hs.filter (fun x => x.is_down)) ∧
    List.Sublist (hs.filter (fun x => x.is_down)) hs ∧
    (∀ x, x ∈ hs.filter (fun x => x.is_down) ↔
      (x ∈ hs ∧ x.is_down = true)) := by
  refine ⟨?_, List.filter_sublist hs, ?_⟩
  · unfold ClusterView.problem_hosts
    rw [h]
    dsimp only
    rw [problemHostsLoop_eq_filter]
  · intro x
    simp [List.mem_filter]

/-- Witness for C9 at the concrete sample cluster: only the down host is
reported. -/
theorem problem_hosts_filter_witness :
    ClusterView.problem_hosts sampleCluster =
      some [{ host_name := "comp02", is_down := true }] := by
  exact (problem_hosts_filter sampleCluster
    [{ host_name := "comp01", is_down := false },
     { host_name := "comp02", is_down := true }] rfl).1
